import Mathlib

/-!
Shallow embedding of the crowd-behavior evaluation core:
the zone classification engine (src/classification/zone_classifier.py)
and the alert lifecycle manager (src/alerts/alert_manager.py).

Python floats are modelled as rationals (ℚ); Python `None` for an optional
numeric argument is `Option ℚ`; functions that can raise `KeyError` return
`Except String _`; the wall clock `time.time()` is passed in explicitly as a
rational `now` parameter.
-/

namespace CrowdEval

/-- Per-level entry of `config['classification_thresholds']`: the density band
and display/action metadata read by the classifier. -/
structure Threshold where
  density_min : ℚ
  density_max : ℚ
  color_hex : String
  color_name : String
  alert_level : String
  requires_action : Bool
  description : String
  deriving Repr, DecidableEq

/-- The parts of `config['movement_thresholds']` the classifier reads:
`['speed']['fast']` and `['direction_variance']['panic']`. -/
structure MovementThresholds where
  speed_fast : ℚ
  variance_panic : ℚ
  deriving Repr, DecidableEq

/-- The `config['severity_weights']` triple. -/
structure SeverityWeights where
  density_weight : ℚ
  speed_weight : ℚ
  variance_weight : ℚ
  deriving Repr, DecidableEq

/-- The `config['elevation_rules']['panic_detection']` record. The elevation
amount is a non-negative integer number of levels. -/
structure PanicDetection where
  enabled : Bool
  speed_threshold : ℚ
  variance_threshold : ℚ
  elevation_amount : ℕ
  deriving Repr, DecidableEq

/-- The `config['elevation_rules']['orderly_evacuation']` record. -/
structure OrderlyEvacuation where
  enabled : Bool
  speed_threshold : ℚ
  variance_threshold : ℚ
  deriving Repr, DecidableEq

/-- The `config['elevation_rules']` section. -/
structure ElevationRules where
  panic_detection : PanicDetection
  orderly_evacuation : OrderlyEvacuation
  deriving Repr, DecidableEq

/-- The `config['capacity_settings']` section (only `absolute_max_density`
is read, lazily, by `_calculate_severity_score`). -/
structure CapacitySettings where
  absolute_max_density : ℚ
  deriving Repr, DecidableEq

/-- A raw configuration document as loaded from JSON: each top-level section
may be absent (`none` models a missing key, so reading it raises `KeyError`).
`classification_thresholds` is an insertion-ordered dict from level name to
threshold entry, modelled as an association list. -/
structure RawConfig where
  classification_thresholds : Option (List (String × Threshold))
  movement_thresholds : Option MovementThresholds
  severity_weights : Option SeverityWeights
  elevation_rules : Option ElevationRules
  capacity_settings : Option CapacitySettings
  deriving Repr, DecidableEq

/-- The classifier state after `ZoneClassifier.__init__` succeeded:
the four sections read eagerly in `__init__` are present; `capacity_settings`
is kept as-is because `__init__` never touches it (it is only dereferenced
later, inside `_calculate_severity_score`). -/
structure Classifier where
  classification_thresholds : List (String × Threshold)
  movement_thresholds : MovementThresholds
  severity_weights : SeverityWeights
  elevation_rules : ElevationRules
  capacity_settings : Option CapacitySettings
  deriving Repr, DecidableEq

/-- The fixed `self.level_order` list. -/
def levelOrder : List String := ["safe", "moderate", "warning", "critical", "emergency"]

/-- `ZoneClassifier.__init__`: reads the four top-level sections
`classification_thresholds`, `movement_thresholds`, `severity_weights`,
`elevation_rules` (a missing one raises `KeyError`, modelled as `none`);
no other validation is performed at construction time. -/
def initClassifier (raw : RawConfig) : Option Classifier :=
  match raw.classification_thresholds, raw.movement_thresholds,
        raw.severity_weights, raw.elevation_rules with
  | some t, some m, some w, some e => some ⟨t, m, w, e, raw.capacity_settings⟩
  | _, _, _, _ => none

/-- `ZoneClassifier._classify_by_density`: scan the threshold bands in
insertion order, return the first level whose half-open band
`[density_min, density_max)` contains the density, defaulting to
"emergency" when no band matches. -/
def classifyByDensity (c : Classifier) (density : ℚ) : String :=
  match c.classification_thresholds.find?
      (fun p => decide (p.2.density_min ≤ density) && decide (density < p.2.density_max)) with
  | some p => p.1
  | none => "emergency"

/-- `ZoneClassifier._calculate_severity_score`. Dereferencing a missing
`capacity_settings` section raises `KeyError`, modelled as `Except.error`. -/
def calcSeverityScore (c : Classifier) (density : ℚ) (speed variance : Option ℚ) :
    Except String ℚ :=
  match c.capacity_settings with
  | none => .error "KeyError: capacity_settings"
  | some cap =>
    let max_density := cap.absolute_max_density
    let density_score := min 100 (density / max_density * 100)
    match speed, variance with
    | some s, some v =>
      let max_speed := c.movement_thresholds.speed_fast
      let speed_score := (1 - min s max_speed / max_speed) * 100
      let max_variance := c.movement_thresholds.variance_panic
      let variance_score := min 100 (v / max_variance * 100)
      let severity := density_score * c.severity_weights.density_weight +
        speed_score * c.severity_weights.speed_weight +
        variance_score * c.severity_weights.variance_weight
      .ok (max 0 (min 100 severity))
    | _, _ => .ok (max 0 (min 100 density_score))

/-- `ZoneClassifier._elevate_level`: index the current level in
`level_order`, move up by `elevation_amount` clamped to the end of the list;
an unknown level (the `ValueError` branch) is returned unchanged. -/
def elevateLevel (current_level : String) (elevation_amount : ℕ) : String :=
  match levelOrder.indexOf? current_level with
  | some i => (levelOrder.get? (min (i + elevation_amount) (levelOrder.length - 1))).getD current_level
  | none => current_level

/-- Reason string returned by the panic-detection rule. -/
def panicReason : String := "Panic indicators detected (slow movement + chaos)"

/-- Reason string returned by the orderly-evacuation rule. -/
def orderlyReason : String := "Orderly evacuation detected"

/-- `ZoneClassifier._adjust_by_movement`: the panic rule is checked first and
returns only when the clamped elevated level differs from the base level;
otherwise control falls through to the orderly-evacuation rule; otherwise the
base level is returned with no reason. The `density` argument is accepted but
unused, as in the source. -/
def adjustByMovement (c : Classifier) (base_level : String) (_density : ℚ)
    (speed variance : ℚ) : String × Option String :=
  let pd := c.elevation_rules.panic_detection
  let oe := c.elevation_rules.orderly_evacuation
  if pd.enabled = true ∧ speed < pd.speed_threshold ∧ variance > pd.variance_threshold ∧
      elevateLevel base_level pd.elevation_amount ≠ base_level then
    (elevateLevel base_level pd.elevation_amount, some panicReason)
  else if oe.enabled = true ∧ speed > oe.speed_threshold ∧ variance < oe.variance_threshold then
    (base_level, some orderlyReason)
  else
    (base_level, none)

/-- Look up `self.thresholds[level]` (a dict access that may raise). -/
def lookupThreshold (c : Classifier) (level : String) : Option Threshold :=
  (c.classification_thresholds.find? (fun p => p.1 == level)).map (fun p => p.2)

/-- Python `round(x, 2)` modelled as rounding to a multiple of 1/100
(CPython uses round-half-even; the two agree except at exact half-ties). -/
def round2 (q : ℚ) : ℚ := ((round (q * 100) : ℤ) : ℚ) / 100

/-- The classification record assembled by `ZoneClassifier.classify_zone`. -/
structure ClassificationRecord where
  zone_id : Option String
  level : String
  base_level : String
  color : String
  color_name : String
  alert_level : String
  severity_score : ℚ
  requires_action : Bool
  description : String
  density : ℚ
  speed : Option ℚ
  variance : Option ℚ
  elevated : Bool
  elevation_reason : Option String
  deriving Repr, DecidableEq

/-- Step 3 of `classify_zone`: run `_adjust_by_movement` only when both
speed and variance are present, otherwise keep the base level with no
reason. -/
def adjustedOf (c : Classifier) (base_level : String) (density : ℚ)
    (speed variance : Option ℚ) : String × Option String :=
  match speed, variance with
  | some s, some v => adjustByMovement c base_level density s v
  | _, _ => (base_level, none)

/-- `ZoneClassifier.classify_zone`: density classification, severity score,
optional movement adjustment (only when both speed and variance are present),
then metadata lookup for the adjusted level (`self.thresholds[adjusted_level]`,
which raises `KeyError` when that level is absent from the configuration).
The append to `classification_history` is a side effect not observed by any
property here, so the record alone is returned. -/
def classifyZone (c : Classifier) (density : ℚ) (speed variance : Option ℚ)
    (zone_id : Option String) : Except String ClassificationRecord :=
  let base_level := classifyByDensity c density
  match calcSeverityScore c density speed variance with
  | .error e => .error e
  | .ok severity_score =>
    let adj := adjustedOf c base_level density speed variance
    match lookupThreshold c adj.1 with
    | none => .error ("KeyError: " ++ adj.1)
    | some info =>
      .ok { zone_id := zone_id
            level := adj.1
            base_level := base_level
            color := info.color_hex
            color_name := info.color_name
            alert_level := info.alert_level
            severity_score := round2 severity_score
            requires_action := info.requires_action
            description := info.description
            density := density
            speed := speed
            variance := variance
            elevated := decide (adj.1 ≠ base_level)
            elevation_reason := adj.2 }

/-- One row of the zone-batch input frame consumed by
`ZoneClassifier.classify_all_zones` (speed/variance/zone_id accessed via
`.get`, so they may be absent). -/
structure ZoneRow where
  zone_id : Option String
  x_coord : ℚ
  y_coord : ℚ
  density : ℚ
  movement_speed : Option ℚ
  direction_variance : Option ℚ
  deriving Repr, DecidableEq

/-- One row of the output frame built by `classify_all_zones`. -/
structure ResultRow where
  zone_id : Option String
  x : ℚ
  y : ℚ
  level : String
  base_level : String
  color : String
  severity : ℚ
  density : ℚ
  speed : Option ℚ
  variance : Option ℚ
  requires_action : Bool
  elevated : Bool
  elevation_reason : Option String
  deriving Repr, DecidableEq

/-- `ZoneClassifier.classify_all_zones`: classify each row in input order and
collect the projected result rows; an exception raised while classifying one
zone propagates (aborting the loop), as in the source. -/
def classifyAllZones (c : Classifier) (frame_data : List ZoneRow) :
    Except String (List ResultRow) :=
  frame_data.mapM (fun zone =>
    (classifyZone c zone.density zone.movement_speed zone.direction_variance
        zone.zone_id).map (fun r =>
      { zone_id := r.zone_id
        x := zone.x_coord
        y := zone.y_coord
        level := r.level
        base_level := r.base_level
        color := r.color
        severity := r.severity_score
        density := r.density
        speed := r.speed
        variance := r.variance
        requires_action := r.requires_action
        elevated := r.elevated
        elevation_reason := r.elevation_reason }))

/-- The summary dictionary built by
`ZoneClassifier.get_classification_summary`. The pandas reductions
`Series.mean()` and `Series.max()` return `NaN` on an empty column, modelled
here as `none`. -/
structure ClassSummary where
  total_zones : ℕ
  level_counts : List (String × ℕ)
  level_percentages : List (String × ℚ)
  average_severity : Option ℚ
  max_severity : Option ℚ
  zones_requiring_action : ℕ
  elevated_zones : ℕ
  deriving Repr, DecidableEq

/-- `ZoneClassifier.get_classification_summary`: totals, per-level counts and
percentages (guarded against division by zero), mean/max severity (pandas
`NaN` on an empty frame, modelled as `none`), and flag counts. The iteration
over levels uses the fixed `self.level_order`. -/
def getClassificationSummary (classified_zones : List ResultRow) : ClassSummary :=
  let total_zones := classified_zones.length
  { total_zones := total_zones
    level_counts := levelOrder.map (fun level =>
      (level, (classified_zones.filter (fun z => z.level == level)).length))
    level_percentages := levelOrder.map (fun level =>
      (level,
        if total_zones > 0 then
          ((classified_zones.filter (fun z => z.level == level)).length : ℚ)
            / (total_zones : ℚ) * 100
        else 0))
    average_severity :=
      if classified_zones.isEmpty then none
      else some ((classified_zones.map (fun z => z.severity)).sum / (total_zones : ℚ))
    max_severity :=
      match classified_zones with
      | [] => none
      | z :: zs => some (zs.foldl (fun m w => max m w.severity) z.severity)
    zones_requiring_action := (classified_zones.filter (fun z => z.requires_action)).length
    elevated_zones := (classified_zones.filter (fun z => z.elevated)).length }

/-- Visual descriptor of an alert level (static, from
`AlertManager._initialize_alert_config`). -/
structure Visual where
  color : String
  flash : Bool
  flash_rate : ℚ
  icon : String
  message : String
  deriving Repr, DecidableEq

/-- Audio descriptor of an alert level (static, from
`AlertManager._initialize_alert_config`); a pattern element is a
(kind, duration) pair. -/
structure Audio where
  enabled : Bool
  frequency : ℚ
  duration : ℚ
  beeps : ℕ
  pattern : List (String × ℚ)
  deriving Repr, DecidableEq

/-- One level's entry of `self.alert_config`. -/
structure AlertConfigEntry where
  priority : ℕ
  visual : Visual
  audio : Audio
  deriving Repr, DecidableEq

/-- The static `self.alert_config` dict built by
`AlertManager._initialize_alert_config` (a lookup of a level outside the five
keys raises, modelled as `none`). -/
def alertConfig (level : String) : Option AlertConfigEntry :=
  if level == "safe" then
    some ⟨0, ⟨"#00FF00", false, 0, "✓", "Normal Operations"⟩,
      ⟨false, 0, 0, 0, []⟩⟩
  else if level == "moderate" then
    some ⟨1, ⟨"#7FFF00", false, 0, "⚠", "Increased Density - Monitor"⟩,
      ⟨false, 0, 0, 0, []⟩⟩
  else if level == "warning" then
    some ⟨2, ⟨"#FFFF00", true, 1, "⚠️", "HIGH DENSITY WARNING"⟩,
      ⟨true, 800, 3/10, 1, [("beep", 3/10)]⟩⟩
  else if level == "critical" then
    some ⟨3, ⟨"#FF8C00", true, 2, "🔴", "CRITICAL CONGESTION"⟩,
      ⟨true, 1000, 1/2, 2, [("beep", 1/2), ("pause", 1/5), ("beep", 1/2)]⟩⟩
  else if level == "emergency" then
    some ⟨4, ⟨"#FF0000", true, 3, "🚨", "EMERGENCY - EVACUATE NOW"⟩,
      ⟨true, 1200, 7/10, 3,
        [("beep", 7/10), ("pause", 1/5), ("beep", 7/10), ("pause", 1/5), ("beep", 7/10)]⟩⟩
  else none

/-- An alert object created by `AlertManager.trigger_alert`. -/
structure Alert where
  timestamp : ℚ
  level : String
  zone_id : String
  severity : ℚ
  priority : ℕ
  visual : Visual
  audio : Audio
  alert_key : String
  deriving Repr, DecidableEq

/-- Read the cooldown ledger `self.last_alert_time` (a
`defaultdict(float)`, so a missing key reads as 0). -/
def ledgerGet (ledger : List (String × ℚ)) (key : String) : ℚ :=
  match ledger.find? (fun p => p.1 == key) with
  | some p => p.2
  | none => 0

/-- Write a timestamp into the cooldown ledger (dict assignment: overwrite
an existing key, otherwise append). -/
def ledgerSet (ledger : List (String × ℚ)) (key : String) (v : ℚ) :
    List (String × ℚ) :=
  if ledger.any (fun p => p.1 == key) then
    ledger.map (fun p => if p.1 == key then (key, v) else p)
  else ledger ++ [(key, v)]

/-- Read the per-level counter `self.alerts_by_level` (a
`defaultdict(int)`). -/
def counterGet (counters : List (String × ℕ)) (key : String) : ℕ :=
  match counters.find? (fun p => p.1 == key) with
  | some p => p.2
  | none => 0

/-- Increment a per-level counter (`self.alerts_by_level[level] += 1`). -/
def counterBump (counters : List (String × ℕ)) (key : String) :
    List (String × ℕ) :=
  if counters.any (fun p => p.1 == key) then
    counters.map (fun p => if p.1 == key then (key, p.2 + 1) else p)
  else counters ++ [(key, 1)]

/-- The mutable state owned by an `AlertManager` instance. -/
structure AlertManagerState where
  cooldown_seconds : ℚ
  last_alert_time : List (String × ℚ)
  active_alerts : List Alert
  alert_history : List Alert
  total_alerts_triggered : ℕ
  alerts_by_level : List (String × ℕ)
  deriving Repr, DecidableEq

/-- `AlertManager.__init__` with a given cooldown. -/
def initAlertManager (cooldown_seconds : ℚ) : AlertManagerState :=
  ⟨cooldown_seconds, [], [], [], 0, []⟩

/-- `AlertManager.check_cooldown`: true when the elapsed time since the
ledger's last-known timestamp for the key is at least the cooldown. -/
def checkCooldown (st : AlertManagerState) (now : ℚ) (alert_key : String) : Bool :=
  decide (st.cooldown_seconds ≤ now - ledgerGet st.last_alert_time alert_key)

/-- `AlertManager.trigger_alert`: reject levels outside
warning/critical/emergency, reject keys still in cooldown (both without any
state change); on success build the alert from the level's static config,
record the ledger timestamp, append to the active list and history, and bump
both counters. The several `time.time()` reads within one call are modelled
as the single instant `now`. -/
def triggerAlert (st : AlertManagerState) (now : ℚ) (level zone_id : String)
    (severity : ℚ) : Option Alert × AlertManagerState :=
  if level ∈ (["warning", "critical", "emergency"] : List String) then
    let alert_key := level ++ "_" ++ zone_id
    if checkCooldown st now alert_key then
      match alertConfig level with
      | none => (none, st)
      | some cfg =>
        let alert : Alert :=
          ⟨now, level, zone_id, severity, cfg.priority, cfg.visual, cfg.audio, alert_key⟩
        (some alert,
          { st with
            last_alert_time := ledgerSet st.last_alert_time alert_key now
            active_alerts := st.active_alerts ++ [alert]
            alert_history := st.alert_history ++ [alert]
            total_alerts_triggered := st.total_alerts_triggered + 1
            alerts_by_level := counterBump st.alerts_by_level level })
    else (none, st)
  else (none, st)

/-- Per-level alert counts in a summary (`summary['by_level']` has exactly
the three keys emergency/critical/warning). -/
structure ByLevel where
  emergency : ℕ
  critical : ℕ
  warning : ℕ
  deriving Repr, DecidableEq

/-- Accumulator for the loop inside `AlertManager.generate_alert_summary`
(`zones` is the growing `zones_affected` set, as an insertion-ordered
duplicate-free list). -/
structure SummaryAcc where
  by_level : ByLevel
  highest_priority : Option Alert
  highest_severity : ℚ
  zones : List String
  deriving Repr, DecidableEq

/-- One iteration of the loop in `generate_alert_summary`: count the level if
it is one of the three summary keys, add the zone to the affected set, and
update the running strict maximum of severity together with the
highest-priority alert. -/
def summaryStep (s : SummaryAcc) (alert : Alert) : SummaryAcc :=
  let bl :=
    if alert.level = "emergency" then
      { s.by_level with emergency := s.by_level.emergency + 1 }
    else if alert.level = "critical" then
      { s.by_level with critical := s.by_level.critical + 1 }
    else if alert.level = "warning" then
      { s.by_level with warning := s.by_level.warning + 1 }
    else s.by_level
  let zs := if s.zones.contains alert.zone_id then s.zones else s.zones ++ [alert.zone_id]
  if s.highest_severity < alert.severity then
    { by_level := bl, highest_priority := some alert,
      highest_severity := alert.severity, zones := zs }
  else
    { by_level := bl, highest_priority := s.highest_priority,
      highest_severity := s.highest_severity, zones := zs }

/-- The summary returned by `AlertManager.generate_alert_summary`
(`zones_affected` is finally replaced by the set's cardinality). -/
structure AlertSummary where
  total_alerts : ℕ
  by_level : ByLevel
  highest_priority : Option Alert
  highest_severity : ℚ
  zones_affected : ℕ
  deriving Repr, DecidableEq

/-- `AlertManager.generate_alert_summary`: fold the loop body over the alert
list starting from the all-zero summary. -/
def generateAlertSummary (alerts : List Alert) : AlertSummary :=
  let acc := alerts.foldl summaryStep ⟨⟨0, 0, 0⟩, none, 0, []⟩
  { total_alerts := alerts.length
    by_level := acc.by_level
    highest_priority := acc.highest_priority
    highest_severity := acc.highest_severity
    zones_affected := acc.zones.length }

/-- A concrete, well-formed threshold table with the five contiguous bands
used by the repository's scenarios. -/
def stdThresholds : List (String × Threshold) :=
  [("safe", ⟨0, 2, "#00FF00", "Green", "none", false, "Normal conditions"⟩),
   ("moderate", ⟨2, 7/2, "#7FFF00", "Yellow-Green", "monitor", false, "Increased density"⟩),
   ("warning", ⟨7/2, 5, "#FFFF00", "Yellow", "warning", true, "High density"⟩),
   ("critical", ⟨5, 7, "#FF8C00", "Orange", "critical", true, "Critical congestion"⟩),
   ("emergency", ⟨7, 10, "#FF0000", "Red", "emergency", true, "Emergency"⟩)]

/-- A concrete classifier instance (panic detection enabled with elevation
amount 2, orderly evacuation enabled, capacity ceiling 10). -/
def stdC : Classifier :=
  { classification_thresholds := stdThresholds
    movement_thresholds := ⟨3/2, 120⟩
    severity_weights := ⟨1/2, 3/10, 1/5⟩
    elevation_rules := ⟨⟨true, 1/2, 120, 2⟩, ⟨true, 6/5, 60⟩⟩
    capacity_settings := some ⟨10⟩ }

/-- Like `stdC` but with panic elevation amount 1. -/
def stdC1 : Classifier :=
  { stdC with elevation_rules := ⟨⟨true, 1/2, 120, 1⟩, ⟨true, 6/5, 60⟩⟩ }

/-- Severity score with movement data absent, as an explicit clamped form. -/
theorem calcSeverityScore_none (c : Classifier) (cap : CapacitySettings)
    (hcap : c.capacity_settings = some cap) (d : ℚ) :
    calcSeverityScore c d none none =
      .ok (max 0 (min 100 (d / cap.absolute_max_density * 100))) := by
  simp [calcSeverityScore, hcap]

/-- C1: with speed and variance absent and a positive configured
absolute_max_density, the severity score of a density d ≥ 0 equals the
density component min(100, d/max_density·100) alone, lies in [0, 100], is
monotonically non-decreasing in d up to max_density, and is constantly 100
for every d ≥ max_density. -/
theorem severity_score_density_only (c : Classifier) (cap : CapacitySettings)
    (hcap : c.capacity_settings = some cap)
    (hM : 0 < cap.absolute_max_density) :
    (∀ d : ℚ, 0 ≤ d → calcSeverityScore c d none none =
      .ok (min 100 (d / cap.absolute_max_density * 100))) ∧
    (∀ d s : ℚ, 0 ≤ d → calcSeverityScore c d none none = .ok s →
      0 ≤ s ∧ s ≤ 100) ∧
    (∀ d₁ d₂ s₁ s₂ : ℚ, 0 ≤ d₁ → d₁ ≤ d₂ → d₂ ≤ cap.absolute_max_density →
      calcSeverityScore c d₁ none none = .ok s₁ →
      calcSeverityScore c d₂ none none = .ok s₂ → s₁ ≤ s₂) ∧
    (∀ d : ℚ, cap.absolute_max_density ≤ d →
      calcSeverityScore c d none none = .ok 100) := by
  have key : ∀ d : ℚ, 0 ≤ d →
      max 0 (min 100 (d / cap.absolute_max_density * 100)) =
        min 100 (d / cap.absolute_max_density * 100) := by
    intro d hd
    refine max_eq_right (le_min (by norm_num) ?_)
    exact mul_nonneg (div_nonneg hd hM.le) (by norm_num)
  refine ⟨?_, ?_, ?_, ?_⟩
  · intro d hd
    rw [calcSeverityScore_none c cap hcap, key d hd]
  · intro d s hd hs
    rw [calcSeverityScore_none c cap hcap] at hs
    have hs' : s = max 0 (min 100 (d / cap.absolute_max_density * 100)) := by
      exact (Except.ok.injEq _ _).mp hs.symm
    subst hs'
    constructor
    · exact le_max_left 0 _
    · exact max_le (by norm_num) (min_le_left _ _)
  · intro d₁ d₂ s₁ s₂ hd₁ h12 _ hs₁ hs₂
    rw [calcSeverityScore_none c cap hcap] at hs₁ hs₂
    have e₁ : s₁ = max 0 (min 100 (d₁ / cap.absolute_max_density * 100)) :=
      (Except.ok.injEq _ _).mp hs₁.symm
    have e₂ : s₂ = max 0 (min 100 (d₂ / cap.absolute_max_density * 100)) :=
      (Except.ok.injEq _ _).mp hs₂.symm
    subst e₁; subst e₂
    have hdiv : d₁ / cap.absolute_max_density ≤ d₂ / cap.absolute_max_density :=
      (div_le_div_iff_of_pos_right hM).mpr h12
    have hmul : d₁ / cap.absolute_max_density * 100 ≤
        d₂ / cap.absolute_max_density * 100 :=
      mul_le_mul_of_nonneg_right hdiv (by norm_num)
    exact max_le_max le_rfl (min_le_min le_rfl hmul)
  · intro d hMd
    rw [calcSeverityScore_none c cap hcap]
    have h1 : (1 : ℚ) ≤ d / cap.absolute_max_density := (one_le_div hM).mpr hMd
    have h100 : (100 : ℚ) ≤ d / cap.absolute_max_density * 100 := by
      nlinarith
    rw [min_eq_left h100]
    norm_num

/-- Concrete instantiation of C1: with the standard configuration
(max_density = 10), a density of 4 scores exactly 40 and a density of 25
saturates at 100. -/
theorem severity_score_density_only_witness :
    calcSeverityScore stdC 4 none none = .ok 40 ∧
    calcSeverityScore stdC 25 none none = .ok 100 := by
  constructor
  · have h := (severity_score_density_only stdC ⟨10⟩ rfl (by norm_num)).1 4 (by norm_num)
    rw [h]; norm_num
  · exact (severity_score_density_only stdC ⟨10⟩ rfl (by norm_num)).2.2.2 25 (by norm_num)

/-- Elevating "emergency" by any amount (clamped indexing) stays
"emergency". -/
theorem elevateLevel_emergency (amt : ℕ) : elevateLevel "emergency" amt = "emergency" := by
  have hidx : levelOrder.indexOf? "emergency" = some 4 := by decide
  unfold elevateLevel
  rw [hidx]
  show (levelOrder.get? (min (4 + amt) 4)).getD "emergency" = "emergency"
  rw [min_eq_right (Nat.le_add_right 4 amt)]
  rfl

/-- With base level "emergency" the panic branch of `_adjust_by_movement`
can never return (its clamped elevation is a no-op), so the adjusted level is
the base level and the reason is never the panic reason. -/
theorem adjustByMovement_emergency (c : Classifier) (d speed variance : ℚ) :
    (adjustByMovement c "emergency" d speed variance).1 = "emergency" ∧
    (adjustByMovement c "emergency" d speed variance).2 ≠ some panicReason := by
  simp only [adjustByMovement]
  split_ifs with h1 h2
  · exact absurd (elevateLevel_emergency c.elevation_rules.panic_detection.elevation_amount)
      h1.2.2.2
  · refine ⟨rfl, ?_⟩
    simp only [ne_eq, Option.some.injEq]
    intro h
    exact absurd h (by decide)
  · exact ⟨rfl, by simp⟩

/-- C2: with panic detection enabled and elevation amount 1, a base level of
"warning" together with speed below the panic speed threshold and variance
above the panic variance threshold yields "critical" with the reason starting
"Panic indicators detected"; and with orderly evacuation enabled, when the
panic condition does not hold and speed is above the orderly speed threshold
with variance below the orderly variance threshold, the base level is
returned unchanged with reason "Orderly evacuation detected". -/
theorem adjust_by_movement_panic_and_orderly (c : Classifier)
    (hpe : c.elevation_rules.panic_detection.enabled = true)
    (hoe : c.elevation_rules.orderly_evacuation.enabled = true)
    (hamt : c.elevation_rules.panic_detection.elevation_amount = 1) :
    (∀ d speed variance : ℚ,
      speed < c.elevation_rules.panic_detection.speed_threshold →
      variance > c.elevation_rules.panic_detection.variance_threshold →
      adjustByMovement c "warning" d speed variance = ("critical", some panicReason) ∧
      ∃ tail : String, panicReason = "Panic indicators detected" ++ tail) ∧
    (∀ (base_level : String) (d speed variance : ℚ),
      ¬ (speed < c.elevation_rules.panic_detection.speed_threshold ∧
         variance > c.elevation_rules.panic_detection.variance_threshold) →
      speed > c.elevation_rules.orderly_evacuation.speed_threshold →
      variance < c.elevation_rules.orderly_evacuation.variance_threshold →
      adjustByMovement c base_level d speed variance = (base_level, some orderlyReason)) := by
  constructor
  · intro d speed variance hs hv
    have helev : elevateLevel "warning" c.elevation_rules.panic_detection.elevation_amount
        = "critical" := by rw [hamt]; decide
    refine ⟨?_, ⟨" (slow movement + chaos)", rfl⟩⟩
    simp only [adjustByMovement]
    rw [if_pos ⟨hpe, hs, hv, by rw [helev]; decide⟩, helev]
  · intro base_level d speed variance hnp hs hv
    simp only [adjustByMovement]
    rw [if_neg (fun h => hnp ⟨h.2.1, h.2.2.1⟩), if_pos ⟨hoe, hs, hv⟩]

/-- Concrete instantiation of C2 on `stdC1` (panic thresholds speed < 1/2,
variance > 120, amount 1; orderly thresholds speed > 6/5, variance < 60). -/
theorem adjust_by_movement_panic_and_orderly_witness :
    adjustByMovement stdC1 "warning" 4 (2/5) 135 = ("critical", some panicReason) ∧
    adjustByMovement stdC1 "warning" 4 (13/10) 50 = ("warning", some orderlyReason) := by
  constructor
  · exact ((adjust_by_movement_panic_and_orderly stdC1 rfl rfl rfl).1 4 (2/5) 135
      (by norm_num [stdC1, stdC]) (by norm_num [stdC1, stdC])).1
  · exact (adjust_by_movement_panic_and_orderly stdC1 rfl rfl rfl).2 "warning" 4 (13/10) 50
      (by norm_num [stdC1, stdC]) (by norm_num [stdC1, stdC]) (by norm_num [stdC1, stdC])

/-- When the capacity section is present the severity scorer never raises. -/
theorem calcSeverityScore_isOk (c : Classifier) (cap : CapacitySettings)
    (hcap : c.capacity_settings = some cap) (d : ℚ) (sp vv : Option ℚ) :
    ∃ s, calcSeverityScore c d sp vv = .ok s := by
  unfold calcSeverityScore
  rw [hcap]
  cases sp <;> cases vv <;> exact ⟨_, rfl⟩

/-- Unfolding of `classify_zone` on the success path: given the severity
score and the metadata found for the adjusted level, the produced record is
determined field by field. -/
theorem classifyZone_eq (c : Classifier) (d : ℚ) (sp vv : Option ℚ)
    (zid : Option String) (s : ℚ) (info : Threshold)
    (hs : calcSeverityScore c d sp vv = .ok s)
    (hlook : lookupThreshold c (adjustedOf c (classifyByDensity c d) d sp vv).1 = some info) :
    classifyZone c d sp vv zid = .ok
      { zone_id := zid
        level := (adjustedOf c (classifyByDensity c d) d sp vv).1
        base_level := classifyByDensity c d
        color := info.color_hex
        color_name := info.color_name
        alert_level := info.alert_level
        severity_score := round2 s
        requires_action := info.requires_action
        description := info.description
        density := d
        speed := sp
        variance := vv
        elevated := decide ((adjustedOf c (classifyByDensity c d) d sp vv).1 ≠ classifyByDensity c d)
        elevation_reason := (adjustedOf c (classifyByDensity c d) d sp vv).2 } := by
  simp only [classifyZone, hs, hlook]

/-- C3: elevation is clamped at "emergency" (elevating "emergency" by any
positive amount yields "emergency"); and when the panic condition holds but
the clamped elevated level equals the base level because the base is already
"emergency", the classification record reports elevated = false and its
elevation reason is not the panic reason. -/
theorem elevation_clamped_at_emergency (c : Classifier) :
    (∀ amt : ℕ, 0 < amt → elevateLevel "emergency" amt = "emergency") ∧
    (∀ (d speed variance : ℚ) (zid : Option String) (r : ClassificationRecord),
      classifyByDensity c d = "emergency" →
      c.elevation_rules.panic_detection.enabled = true →
      speed < c.elevation_rules.panic_detection.speed_threshold →
      variance > c.elevation_rules.panic_detection.variance_threshold →
      classifyZone c d (some speed) (some variance) zid = .ok r →
      r.elevated = false ∧ r.elevation_reason ≠ some panicReason) := by
  constructor
  · intro amt _
    exact elevateLevel_emergency amt
  · intro d speed variance zid r hbase _ _ _ hok
    unfold classifyZone at hok
    rw [hbase] at hok
    simp only [adjustedOf] at hok
    have hadj := adjustByMovement_emergency c d speed variance
    cases hsev : calcSeverityScore c d (some speed) (some variance) with
    | error e => rw [hsev] at hok; exact absurd hok (by simp)
    | ok sc =>
      rw [hsev] at hok
      simp only at hok
      cases hlook : lookupThreshold c (adjustByMovement c "emergency" d speed variance).1 with
      | none => rw [hlook] at hok; exact absurd hok (by simp)
      | some info =>
        rw [hlook] at hok
        simp only [Except.ok.injEq] at hok
        subst hok
        refine ⟨?_, ?_⟩
        · simp [hadj.1]
        · simpa using hadj.2

/-- Concrete instantiation of C3 on `stdC`: density 8 is in the emergency
band, speed 2/5 and variance 135 satisfy the panic condition, yet the record
is not elevated and carries no panic reason. -/
theorem elevation_clamped_at_emergency_witness :
    elevateLevel "emergency" 3 = "emergency" ∧
    ∃ r, classifyZone stdC 8 (some (2/5)) (some 135) (some "Z") = .ok r ∧
      r.elevated = false ∧ r.elevation_reason ≠ some panicReason := by
  refine ⟨(elevation_clamped_at_emergency stdC).1 3 (by norm_num), ?_⟩
  have hbase : classifyByDensity stdC 8 = "emergency" := by
    norm_num [classifyByDensity, stdC, stdThresholds]
  obtain ⟨s, hs⟩ := calcSeverityScore_isOk stdC ⟨10⟩ rfl 8 (some (2/5)) (some 135)
  have hlook : lookupThreshold stdC
      (adjustedOf stdC (classifyByDensity stdC 8) 8 (some (2/5)) (some 135)).1 =
      some ⟨7, 10, "#FF0000", "Red", "emergency", true, "Emergency"⟩ := by
    rw [hbase]
    simp only [adjustedOf]
    rw [(adjustByMovement_emergency stdC 8 (2/5) 135).1]
    rfl
  have hcz := classifyZone_eq stdC 8 (some (2/5)) (some 135) (some "Z") s
    ⟨7, 10, "#FF0000", "Red", "emergency", true, "Emergency"⟩ hs hlook
  have h2 := (elevation_clamped_at_emergency stdC).2 8 (2/5) 135 (some "Z") _
    hbase rfl (by norm_num [stdC]) (by norm_num [stdC]) hcz
  exact ⟨_, hcz, h2.1, h2.2⟩

/-- A classifier whose panic window (speed < 2, variance > 10) and orderly
window (speed > 1, variance < 20) overlap, so both rule conditions can hold
at once. -/
def cfg4 : Classifier :=
  { stdC with elevation_rules := ⟨⟨true, 2, 10, 1⟩, ⟨true, 1, 20⟩⟩ }

/-- Counterexample to C4: on `cfg4` with base level "emergency", speed 3/2
and variance 15 satisfy the panic condition AND the orderly condition, both
rules are enabled, yet the adjuster returns the orderly rule's result (the
orderly reason, not the panic reason): evaluation fell through to rule 2
even though the panic condition held (the clamped elevation was a no-op). -/
theorem adjust_panic_precedence_counterexample :
    ((3/2 : ℚ) < cfg4.elevation_rules.panic_detection.speed_threshold ∧
      (15 : ℚ) > cfg4.elevation_rules.panic_detection.variance_threshold) ∧
    ((3/2 : ℚ) > cfg4.elevation_rules.orderly_evacuation.speed_threshold ∧
      (15 : ℚ) < cfg4.elevation_rules.orderly_evacuation.variance_threshold) ∧
    cfg4.elevation_rules.panic_detection.enabled = true ∧
    cfg4.elevation_rules.orderly_evacuation.enabled = true ∧
    adjustByMovement cfg4 "emergency" 5 (3/2) 15 = ("emergency", some orderlyReason) ∧
    orderlyReason ≠ panicReason := by
  refine ⟨⟨by norm_num [cfg4, stdC], by norm_num [cfg4, stdC]⟩,
    ⟨by norm_num [cfg4, stdC], by norm_num [cfg4, stdC]⟩, rfl, rfl, ?_, by decide⟩
  simp only [adjustByMovement]
  rw [if_neg (fun h => h.2.2.2 (elevateLevel_emergency _)),
    if_pos ⟨rfl, by norm_num [cfg4, stdC], by norm_num [cfg4, stdC]⟩]

/-- C4 (amended): the panic rule takes precedence whenever it actually fires,
i.e. when it is enabled, its condition holds, and the clamped elevation
changes the level; evaluation falls through to the orderly rule when the
panic rule does not fire — because it is disabled, its condition fails, or
its clamped elevation equals the base level. -/
theorem adjust_panic_precedence (c : Classifier) :
    (∀ (base_level : String) (d speed variance : ℚ),
      c.elevation_rules.panic_detection.enabled = true →
      speed < c.elevation_rules.panic_detection.speed_threshold →
      variance > c.elevation_rules.panic_detection.variance_threshold →
      elevateLevel base_level c.elevation_rules.panic_detection.elevation_amount ≠ base_level →
      adjustByMovement c base_level d speed variance =
        (elevateLevel base_level c.elevation_rules.panic_detection.elevation_amount,
          some panicReason)) ∧
    (∀ (base_level : String) (d speed variance : ℚ),
      (c.elevation_rules.panic_detection.enabled = false ∨
        ¬ (speed < c.elevation_rules.panic_detection.speed_threshold ∧
           variance > c.elevation_rules.panic_detection.variance_threshold) ∨
        elevateLevel base_level c.elevation_rules.panic_detection.elevation_amount = base_level) →
      c.elevation_rules.orderly_evacuation.enabled = true →
      speed > c.elevation_rules.orderly_evacuation.speed_threshold →
      variance < c.elevation_rules.orderly_evacuation.variance_threshold →
      adjustByMovement c base_level d speed variance = (base_level, some orderlyReason)) := by
  constructor
  · intro base_level d speed variance hen hs hv hne
    simp only [adjustByMovement]
    rw [if_pos ⟨hen, hs, hv, hne⟩]
  · intro base_level d speed variance hfall hoe hs hv
    simp only [adjustByMovement]
    rw [if_neg ?_, if_pos ⟨hoe, hs, hv⟩]
    rintro ⟨h1, h2, h3, h4⟩
    rcases hfall with h | h | h
    · rw [h] at h1; exact absurd h1 (by decide)
    · exact h ⟨h2, h3⟩
    · exact h4 h

/-- Concrete instantiation of the amended C4 on `cfg4`: with an elevatable
base level the panic rule wins even though the orderly condition also holds,
and with base already "emergency" evaluation falls through to the orderly
rule. -/
theorem adjust_panic_precedence_witness :
    adjustByMovement cfg4 "warning" 5 (3/2) 15 = ("critical", some panicReason) ∧
    adjustByMovement cfg4 "emergency" 5 (3/2) 15 = ("emergency", some orderlyReason) := by
  constructor
  · have h1 := (adjust_panic_precedence cfg4).1 "warning" 5 (3/2) 15 rfl
      (by norm_num [cfg4, stdC]) (by norm_num [cfg4, stdC]) (by decide)
    rw [h1]
    decide
  · exact (adjust_panic_precedence cfg4).2 "emergency" 5 (3/2) 15
      (Or.inr (Or.inr (elevateLevel_emergency _))) rfl
      (by norm_num [cfg4, stdC]) (by norm_num [cfg4, stdC])

/-- C9: a density matched by no configured band — below every band, in a gap,
or at or above every upper bound — classifies as "emergency". -/
theorem density_no_band_defaults_emergency (c : Classifier) (d : ℚ)
    (h : ∀ p ∈ c.classification_thresholds, ¬ (p.2.density_min ≤ d ∧ d < p.2.density_max)) :
    classifyByDensity c d = "emergency" := by
  unfold classifyByDensity
  have hnone : c.classification_thresholds.find?
      (fun p => decide (p.2.density_min ≤ d) && decide (d < p.2.density_max)) = none := by
    apply List.find?_eq_none.mpr
    intro p hp hcon
    apply h p hp
    simpa using hcon
  rw [hnone]

/-- Concrete instantiation of C9 on `stdC`: the negative density -1 is below
every band's minimum (all bands start at 0 or above), and classifies as
"emergency". -/
theorem density_no_band_defaults_emergency_witness :
    classifyByDensity stdC (-1) = "emergency" := by
  apply density_no_band_defaults_emergency
  intro p hp
  simp only [stdC, stdThresholds, List.mem_cons, List.not_mem_nil, or_false] at hp
  rcases hp with rfl | rfl | rfl | rfl | rfl <;> norm_num

/-- C6 evaluation: an empty zone batch classifies to an empty record list,
and the summary of the empty record list has total 0, all level counts 0,
all level percentages 0, and no flagged zones — but its mean severity is the
pandas `NaN` (modelled `none`), not 0 as specified. -/
theorem empty_batch_summary_eval :
    classifyAllZones stdC [] = .ok [] ∧
    getClassificationSummary [] =
      { total_zones := 0
        level_counts :=
          [("safe", 0), ("moderate", 0), ("warning", 0), ("critical", 0), ("emergency", 0)]
        level_percentages :=
          [("safe", 0), ("moderate", 0), ("warning", 0), ("critical", 0), ("emergency", 0)]
        average_severity := none
        max_severity := none
        zones_requiring_action := 0
        elevated_zones := 0 } ∧
    (getClassificationSummary []).average_severity ≠ some 0 := by
  refine ⟨rfl, rfl, ?_⟩
  simp [getClassificationSummary]

/-- C5: `trigger_alert` returns an alert exactly when the level is one of
warning/critical/emergency and the elapsed time since the ledger's last-known
timestamp for the (level, zone) key is at least the cooldown; on rejection
the whole manager state is unchanged; on success the alert carries the call's
data and the new state records the ledger timestamp and appends the alert to
both the active list and the history while bumping both counters. -/
theorem trigger_alert_gate (st : AlertManagerState) (now : ℚ)
    (level zone_id : String) (severity : ℚ) :
    ((triggerAlert st now level zone_id severity).1.isSome = true ↔
      level ∈ (["warning", "critical", "emergency"] : List String) ∧
        st.cooldown_seconds ≤ now - ledgerGet st.last_alert_time (level ++ "_" ++ zone_id)) ∧
    ((triggerAlert st now level zone_id severity).1 = none →
      (triggerAlert st now level zone_id severity).2 = st) ∧
    (∀ a, (triggerAlert st now level zone_id severity).1 = some a →
      a.timestamp = now ∧ a.level = level ∧ a.zone_id = zone_id ∧ a.severity = severity ∧
      (triggerAlert st now level zone_id severity).2 =
        { st with
          last_alert_time := ledgerSet st.last_alert_time (level ++ "_" ++ zone_id) now
          active_alerts := st.active_alerts ++ [a]
          alert_history := st.alert_history ++ [a]
          total_alerts_triggered := st.total_alerts_triggered + 1
          alerts_by_level := counterBump st.alerts_by_level level }) := by
  by_cases hmem : level ∈ (["warning", "critical", "emergency"] : List String)
  · cases hc : checkCooldown st now (level ++ "_" ++ zone_id) with
    | false =>
      have hres : triggerAlert st now level zone_id severity = (none, st) := by
        simp only [triggerAlert]
        rw [if_pos hmem, if_neg (by simp [hc])]
      rw [hres]
      refine ⟨?_, fun _ => rfl, fun a ha => absurd ha (by simp)⟩
      constructor
      · intro h
        exact absurd h (by simp)
      · rintro ⟨_, hcd⟩
        have hdec : checkCooldown st now (level ++ "_" ++ zone_id) = true := by
          simp only [checkCooldown, decide_eq_true_eq]
          exact hcd
        rw [hc] at hdec
        exact absurd hdec (by decide)
    | true =>
      simp only [List.mem_cons, List.not_mem_nil, or_false] at hmem
      have hcd : st.cooldown_seconds ≤
          now - ledgerGet st.last_alert_time (level ++ "_" ++ zone_id) := by
        have := hc
        simp only [checkCooldown, decide_eq_true_eq] at this
        exact this
      obtain rfl | rfl | rfl := hmem
      · have hres : triggerAlert st now "warning" zone_id severity =
            (some ⟨now, "warning", zone_id, severity, 2,
              ⟨"#FFFF00", true, 1, "⚠️", "HIGH DENSITY WARNING"⟩,
              ⟨true, 800, 3/10, 1, [("beep", 3/10)]⟩, "warning" ++ "_" ++ zone_id⟩,
            { st with
              last_alert_time :=
                ledgerSet st.last_alert_time ("warning" ++ "_" ++ zone_id) now
              active_alerts := st.active_alerts ++
                [⟨now, "warning", zone_id, severity, 2,
                  ⟨"#FFFF00", true, 1, "⚠️", "HIGH DENSITY WARNING"⟩,
                  ⟨true, 800, 3/10, 1, [("beep", 3/10)]⟩, "warning" ++ "_" ++ zone_id⟩]
              alert_history := st.alert_history ++
                [⟨now, "warning", zone_id, severity, 2,
                  ⟨"#FFFF00", true, 1, "⚠️", "HIGH DENSITY WARNING"⟩,
                  ⟨true, 800, 3/10, 1, [("beep", 3/10)]⟩, "warning" ++ "_" ++ zone_id⟩]
              total_alerts_triggered := st.total_alerts_triggered + 1
              alerts_by_level := counterBump st.alerts_by_level "warning" }) := by
          simp only [triggerAlert]
          rw [if_pos (show "warning" ∈ (["warning", "critical", "emergency"] : List String)
            by decide), if_pos hc]
          rfl
        rw [hres]
        refine ⟨⟨fun _ => ⟨by decide, hcd⟩, fun _ => by simp⟩,
          fun hnone => absurd hnone (by simp), fun a ha => ?_⟩
        have hae := (Option.some.injEq _ _).mp ha
        subst hae
        exact ⟨rfl, rfl, rfl, rfl, rfl⟩
      · have hres : triggerAlert st now "critical" zone_id severity =
            (some ⟨now, "critical", zone_id, severity, 3,
              ⟨"#FF8C00", true, 2, "🔴", "CRITICAL CONGESTION"⟩,
              ⟨true, 1000, 1/2, 2, [("beep", 1/2), ("pause", 1/5), ("beep", 1/2)]⟩,
              "critical" ++ "_" ++ zone_id⟩,
            { st with
              last_alert_time :=
                ledgerSet st.last_alert_time ("critical" ++ "_" ++ zone_id) now
              active_alerts := st.active_alerts ++
                [⟨now, "critical", zone_id, severity, 3,
                  ⟨"#FF8C00", true, 2, "🔴", "CRITICAL CONGESTION"⟩,
                  ⟨true, 1000, 1/2, 2, [("beep", 1/2), ("pause", 1/5), ("beep", 1/2)]⟩,
                  "critical" ++ "_" ++ zone_id⟩]
              alert_history := st.alert_history ++
                [⟨now, "critical", zone_id, severity, 3,
                  ⟨"#FF8C00", true, 2, "🔴", "CRITICAL CONGESTION"⟩,
                  ⟨true, 1000, 1/2, 2, [("beep", 1/2), ("pause", 1/5), ("beep", 1/2)]⟩,
                  "critical" ++ "_" ++ zone_id⟩]
              total_alerts_triggered := st.total_alerts_triggered + 1
              alerts_by_level := counterBump st.alerts_by_level "critical" }) := by
          simp only [triggerAlert]
          rw [if_pos (show "critical" ∈ (["warning", "critical", "emergency"] : List String)
            by decide), if_pos hc]
          rfl
        rw [hres]
        refine ⟨⟨fun _ => ⟨by decide, hcd⟩, fun _ => by simp⟩,
          fun hnone => absurd hnone (by simp), fun a ha => ?_⟩
        have hae := (Option.some.injEq _ _).mp ha
        subst hae
        exact ⟨rfl, rfl, rfl, rfl, rfl⟩
      · have hres : triggerAlert st now "emergency" zone_id severity =
            (some ⟨now, "emergency", zone_id, severity, 4,
              ⟨"#FF0000", true, 3, "🚨", "EMERGENCY - EVACUATE NOW"⟩,
              ⟨true, 1200, 7/10, 3,
                [("beep", 7/10), ("pause", 1/5), ("beep", 7/10), ("pause", 1/5),
                  ("beep", 7/10)]⟩, "emergency" ++ "_" ++ zone_id⟩,
            { st with
              last_alert_time :=
                ledgerSet st.last_alert_time ("emergency" ++ "_" ++ zone_id) now
              active_alerts := st.active_alerts ++
                [⟨now, "emergency", zone_id, severity, 4,
                  ⟨"#FF0000", true, 3, "🚨", "EMERGENCY - EVACUATE NOW"⟩,
                  ⟨true, 1200, 7/10, 3,
                    [("beep", 7/10), ("pause", 1/5), ("beep", 7/10), ("pause", 1/5),
                      ("beep", 7/10)]⟩, "emergency" ++ "_" ++ zone_id⟩]
              alert_history := st.alert_history ++
                [⟨now, "emergency", zone_id, severity, 4,
                  ⟨"#FF0000", true, 3, "🚨", "EMERGENCY - EVACUATE NOW"⟩,
                  ⟨true, 1200, 7/10, 3,
                    [("beep", 7/10), ("pause", 1/5), ("beep", 7/10), ("pause", 1/5),
                      ("beep", 7/10)]⟩, "emergency" ++ "_" ++ zone_id⟩]
              total_alerts_triggered := st.total_alerts_triggered + 1
              alerts_by_level := counterBump st.alerts_by_level "emergency" }) := by
          simp only [triggerAlert]
          rw [if_pos (show "emergency" ∈ (["warning", "critical", "emergency"] : List String)
            by decide), if_pos hc]
          rfl
        rw [hres]
        refine ⟨⟨fun _ => ⟨by decide, hcd⟩, fun _ => by simp⟩,
          fun hnone => absurd hnone (by simp), fun a ha => ?_⟩
        have hae := (Option.some.injEq _ _).mp ha
        subst hae
        exact ⟨rfl, rfl, rfl, rfl, rfl⟩
  · have hres : triggerAlert st now level zone_id severity = (none, st) := by
      simp only [triggerAlert]
      rw [if_neg hmem]
    rw [hres]
    refine ⟨?_, fun _ => rfl, fun a ha => absurd ha (by simp)⟩
    constructor
    · intro h
      exact absurd h (by simp)
    · rintro ⟨hm, _⟩
      exact absurd hm hmem

/-- Concrete instantiation of C5: on a fresh manager with cooldown 5/2, a
"warning" alert for zone "Z1" at time 10 is triggered (the ledger default is
0 and 10 - 0 ≥ 5/2), while a "safe" alert is always rejected with the state
unchanged. -/
theorem trigger_alert_gate_witness :
    (triggerAlert (initAlertManager (5/2)) 10 "warning" "Z1" 50).1.isSome = true ∧
    (triggerAlert (initAlertManager (5/2)) 10 "safe" "Z1" 50).1 = none ∧
    (triggerAlert (initAlertManager (5/2)) 10 "safe" "Z1" 50).2 = initAlertManager (5/2) := by
  refine ⟨?_, ?_, ?_⟩
  · exact (trigger_alert_gate (initAlertManager (5/2)) 10 "warning" "Z1" 50).1.mpr
      ⟨by decide, by norm_num [initAlertManager, ledgerGet]⟩
  · by_contra h
    have hs := Option.ne_none_iff_isSome.mp h
    have := (trigger_alert_gate (initAlertManager (5/2)) 10 "safe" "Z1" 50).1.mp hs
    exact absurd this.1 (by decide)
  · apply (trigger_alert_gate (initAlertManager (5/2)) 10 "safe" "Z1" 50).2.1
    by_contra h
    have hs := Option.ne_none_iff_isSome.mp h
    have := (trigger_alert_gate (initAlertManager (5/2)) 10 "safe" "Z1" 50).1.mp hs
    exact absurd this.1 (by decide)

/-- Helper: when no band matches, `_classify_by_density` falls back to
"emergency" (shared by several developments below). -/
theorem classifyByDensity_no_match (c : Classifier) (d : ℚ)
    (h : ∀ p ∈ c.classification_thresholds, ¬ (p.2.density_min ≤ d ∧ d < p.2.density_max)) :
    classifyByDensity c d = "emergency" := by
  unfold classifyByDensity
  have hnone : c.classification_thresholds.find?
      (fun p => decide (p.2.density_min ≤ d) && decide (d < p.2.density_max)) = none := by
    apply List.find?_eq_none.mpr
    intro p hp hcon
    apply h p hp
    simpa using hcon
  rw [hnone]

/-- A raw configuration whose `classification_thresholds` section is missing
the "emergency" level entirely but is otherwise complete. -/
def cfgMissE : RawConfig :=
  { classification_thresholds := some
      [("safe", ⟨0, 2, "#00FF00", "Green", "none", false, "Normal conditions"⟩),
       ("moderate", ⟨2, 7/2, "#7FFF00", "Yellow-Green", "monitor", false, "Increased density"⟩),
       ("warning", ⟨7/2, 5, "#FFFF00", "Yellow", "warning", true, "High density"⟩),
       ("critical", ⟨5, 7, "#FF8C00", "Orange", "critical", true, "Critical congestion"⟩)]
    movement_thresholds := some ⟨3/2, 120⟩
    severity_weights := some ⟨1/2, 3/10, 1/5⟩
    elevation_rules := some ⟨⟨true, 1/2, 120, 2⟩, ⟨true, 6/5, 60⟩⟩
    capacity_settings := some ⟨10⟩ }

/-- The classifier state that `__init__` builds from `cfgMissE`. -/
def cME : Classifier :=
  { classification_thresholds :=
      [("safe", ⟨0, 2, "#00FF00", "Green", "none", false, "Normal conditions"⟩),
       ("moderate", ⟨2, 7/2, "#7FFF00", "Yellow-Green", "monitor", false, "Increased density"⟩),
       ("warning", ⟨7/2, 5, "#FFFF00", "Yellow", "warning", true, "High density"⟩),
       ("critical", ⟨5, 7, "#FF8C00", "Orange", "critical", true, "Critical congestion"⟩)]
    movement_thresholds := ⟨3/2, 120⟩
    severity_weights := ⟨1/2, 3/10, 1/5⟩
    elevation_rules := ⟨⟨true, 1/2, 120, 2⟩, ⟨true, 6/5, 60⟩⟩
    capacity_settings := some ⟨10⟩ }

/-- Counterexample to C7: `cfgMissE` lists only four of the five levels in
its classification thresholds — "emergency" is missing — yet constructing
the classifier from it succeeds. -/
theorem init_missing_level_counterexample :
    ((cfgMissE.classification_thresholds.getD []).map Prod.fst =
      ["safe", "moderate", "warning", "critical"]) ∧
    (¬ ∃ p ∈ cfgMissE.classification_thresholds.getD [], p.1 = "emergency") ∧
    (initClassifier cfgMissE).isSome = true := by
  refine ⟨rfl, ?_, rfl⟩
  rintro ⟨p, hp, hlvl⟩
  simp only [cfgMissE, Option.getD_some, List.mem_cons, List.not_mem_nil, or_false] at hp
  rcases hp with rfl | rfl | rfl | rfl <;> exact absurd hlvl (by decide)

/-- C7 (amended): construction fails exactly when one of the four top-level
configuration sections read by `__init__` is missing; the per-level structure
of the thresholds is not validated at construction time, so a configuration
missing the "emergency" level constructs successfully and the missing level
only surfaces later, as a KeyError while classifying a density that resolves
to it. -/
theorem init_checks_only_top_level_sections :
    (∀ raw : RawConfig,
      (initClassifier raw).isSome = true ↔
        raw.classification_thresholds.isSome = true ∧
        raw.movement_thresholds.isSome = true ∧
        raw.severity_weights.isSome = true ∧
        raw.elevation_rules.isSome = true) ∧
    initClassifier cfgMissE = some cME ∧
    classifyZone cME 100 none none none = .error "KeyError: emergency" := by
  refine ⟨?_, rfl, ?_⟩
  · rintro ⟨t, m, w, e, cap⟩
    cases t <;> cases m <;> cases w <;> cases e <;> simp [initClassifier]
  · have hbase : classifyByDensity cME 100 = "emergency" := by
      apply classifyByDensity_no_match
      intro p hp
      simp only [cME, List.mem_cons, List.not_mem_nil, or_false] at hp
      rcases hp with rfl | rfl | rfl | rfl <;> norm_num
    obtain ⟨s, hs⟩ := calcSeverityScore_isOk cME ⟨10⟩ rfl 100 none none
    have hlook : lookupThreshold cME "emergency" = none := rfl
    simp only [classifyZone, hs, hbase, adjustedOf, hlook]
    rfl

/-- Concrete instantiation of the general construction rule of amended C7:
a configuration missing the `severity_weights` section fails to construct. -/
theorem init_checks_only_top_level_sections_witness :
    (initClassifier { cfgMissE with severity_weights := none }).isSome = false := by
  have h := (init_checks_only_top_level_sections.1
    { cfgMissE with severity_weights := none })
  by_contra hcon
  rw [Bool.not_eq_false] at hcon
  exact absurd (h.mp hcon).2.2.1 (by decide)

/-- Projection of one summary-loop step onto the per-level counters. -/
theorem summaryStep_by_level (s : SummaryAcc) (a : Alert) :
    (summaryStep s a).by_level =
      if a.level = "emergency" then { s.by_level with emergency := s.by_level.emergency + 1 }
      else if a.level = "critical" then { s.by_level with critical := s.by_level.critical + 1 }
      else if a.level = "warning" then { s.by_level with warning := s.by_level.warning + 1 }
      else s.by_level := by
  simp only [summaryStep]
  split_ifs <;> rfl

/-- Folding the summary loop over alerts whose levels are all among the three
counted keys adds exactly the list length to the counter total. -/
theorem summary_fold_counts (l : List Alert) :
    ∀ acc : SummaryAcc,
      (∀ a ∈ l, a.level ∈ (["warning", "critical", "emergency"] : List String)) →
      (l.foldl summaryStep acc).by_level.emergency +
        (l.foldl summaryStep acc).by_level.critical +
        (l.foldl summaryStep acc).by_level.warning =
      acc.by_level.emergency + acc.by_level.critical + acc.by_level.warning + l.length := by
  induction l with
  | nil => intro acc _; simp
  | cons a t ih =>
    intro acc h
    have ha := h a (List.mem_cons_self a t)
    simp only [List.mem_cons, List.not_mem_nil, or_false] at ha
    simp only [List.foldl_cons, List.length_cons]
    rw [ih (summaryStep acc a) (fun b hb => h b (List.mem_cons_of_mem a hb))]
    rw [summaryStep_by_level]
    rcases ha with h1 | h1 | h1 <;> rw [h1] <;> split_ifs <;> first | omega | simp_all
    all_goals omega

/-- An alert carrying level "safe" (as `trigger_alert` never creates one,
this models a caller handing `generate_alert_summary` an arbitrary list). -/
def safeAlertEx : Alert :=
  ⟨0, "safe", "Z1", 10, 0, ⟨"#00FF00", false, 0, "✓", "Normal Operations"⟩,
    ⟨false, 0, 0, 0, []⟩, "safe_Z1"⟩

/-- Counterexample to C8: for the one-element list holding a "safe"-level
alert — "safe" is one of the five levels — the summary's total is 1 while
the per-level counts (which only track emergency/critical/warning) sum
to 0. -/
theorem alert_summary_counts_counterexample :
    safeAlertEx.level ∈ levelOrder ∧
    (generateAlertSummary [safeAlertEx]).total_alerts = 1 ∧
    (generateAlertSummary [safeAlertEx]).by_level.emergency +
      (generateAlertSummary [safeAlertEx]).by_level.critical +
      (generateAlertSummary [safeAlertEx]).by_level.warning = 0 := by
  refine ⟨by decide, rfl, ?_⟩
  have h1 : (generateAlertSummary [safeAlertEx]).by_level = ⟨0, 0, 0⟩ := by
    simp only [generateAlertSummary, List.foldl_cons, List.foldl_nil]
    rw [summaryStep_by_level]
    split_ifs with h h h <;> simp_all [safeAlertEx]
  rw [h1]
  rfl

/-- C8 (amended): for every list of alerts whose levels all lie in
{warning, critical, emergency} — the only levels `trigger_alert` produces —
the sum of the summary's per-level counts equals its total count. -/
theorem alert_summary_counts_consistent (alerts : List Alert)
    (h : ∀ a ∈ alerts, a.level ∈ (["warning", "critical", "emergency"] : List String)) :
    (generateAlertSummary alerts).by_level.emergency +
      (generateAlertSummary alerts).by_level.critical +
      (generateAlertSummary alerts).by_level.warning =
    (generateAlertSummary alerts).total_alerts := by
  have hf := summary_fold_counts alerts ⟨⟨0, 0, 0⟩, none, 0, []⟩ h
  simp only [generateAlertSummary]
  simpa using hf

/-- A concrete "warning" alert used in summary examples. -/
def wAlertEx : Alert :=
  ⟨0, "warning", "Z1", 50, 2, ⟨"#FFFF00", true, 1, "⚠️", "HIGH DENSITY WARNING"⟩,
    ⟨true, 800, 3/10, 1, [("beep", 3/10)]⟩, "warning_Z1"⟩

/-- A concrete "emergency" alert used in summary examples. -/
def eAlertEx : Alert :=
  ⟨1, "emergency", "Z2", 90, 4, ⟨"#FF0000", true, 3, "🚨", "EMERGENCY - EVACUATE NOW"⟩,
    ⟨true, 1200, 7/10, 3, []⟩, "emergency_Z2"⟩

/-- Concrete instantiation of amended C8 on a two-alert list. -/
theorem alert_summary_counts_consistent_witness :
    (generateAlertSummary [wAlertEx, eAlertEx]).by_level.emergency +
      (generateAlertSummary [wAlertEx, eAlertEx]).by_level.critical +
      (generateAlertSummary [wAlertEx, eAlertEx]).by_level.warning = 2 := by
  rw [alert_summary_counts_consistent [wAlertEx, eAlertEx] (by decide)]
  rfl

/-- The running maximum of severities, seeded at `s` (mirrors the loop's
`highest_severity` accumulator over the severity comparisons alone). -/
def maxSevFrom (s : ℚ) (alerts : List Alert) : ℚ :=
  alerts.foldl (fun m a => max m a.severity) s

/-- Unfolding of `maxSevFrom` on a cons cell. -/
theorem maxSevFrom_cons (s : ℚ) (a : Alert) (t : List Alert) :
    maxSevFrom s (a :: t) = maxSevFrom (max s a.severity) t := rfl

/-- The seed never exceeds the running maximum. -/
theorem le_maxSevFrom (t : List Alert) : ∀ s : ℚ, s ≤ maxSevFrom s t := by
  induction t with
  | nil => intro s; exact le_refl s
  | cons a t ih =>
    intro s
    rw [maxSevFrom_cons]
    exact le_trans (le_max_left s a.severity) (ih (max s a.severity))

/-- Projection of one summary-loop step onto the running severity maximum. -/
theorem summaryStep_hs (s : SummaryAcc) (a : Alert) :
    (summaryStep s a).highest_severity = max s.highest_severity a.severity := by
  by_cases h : s.highest_severity < a.severity
  · simp [summaryStep, h, max_eq_right h.le]
  · simp [summaryStep, h, max_eq_left (not_lt.mp h)]

/-- Projection of one summary-loop step onto the highest-priority slot. -/
theorem summaryStep_hp (s : SummaryAcc) (a : Alert) :
    (summaryStep s a).highest_priority =
      if s.highest_severity < a.severity then some a else s.highest_priority := by
  by_cases h : s.highest_severity < a.severity <;> simp [summaryStep, h]

/-- The summary loop's highest-priority slot ends up holding the first alert
whose severity equals the running maximum, provided some alert strictly
exceeded the seed severity; otherwise the slot is left as seeded. -/
theorem summary_fold_hp (l : List Alert) :
    ∀ acc : SummaryAcc,
      (l.foldl summaryStep acc).highest_priority =
        if acc.highest_severity < maxSevFrom acc.highest_severity l then
          l.find? (fun a => decide (a.severity = maxSevFrom acc.highest_severity l))
        else acc.highest_priority := by
  induction l with
  | nil =>
    intro acc
    simp [maxSevFrom]
  | cons a t ih =>
    intro acc
    simp only [List.foldl_cons]
    rw [ih (summaryStep acc a)]
    by_cases h : acc.highest_severity < a.severity
    · have hmax : max acc.highest_severity a.severity = a.severity := max_eq_right h.le
      rw [summaryStep_hs, hmax, summaryStep_hp, if_pos h]
      have hm : maxSevFrom acc.highest_severity (a :: t) = maxSevFrom a.severity t := by
        rw [maxSevFrom_cons, hmax]
      rw [hm]
      have ham : a.severity ≤ maxSevFrom a.severity t := le_maxSevFrom t a.severity
      rw [if_pos (lt_of_lt_of_le h ham)]
      by_cases h2 : a.severity < maxSevFrom a.severity t
      · rw [if_pos h2]
        simp [List.find?, decide_eq_false (ne_of_lt h2)]
      · rw [if_neg h2]
        have heq : a.severity = maxSevFrom a.severity t := le_antisymm ham (not_lt.mp h2)
        simp [List.find?, decide_eq_true heq]
    · have hmax : max acc.highest_severity a.severity = acc.highest_severity :=
        max_eq_left (not_lt.mp h)
      rw [summaryStep_hs, hmax, summaryStep_hp, if_neg h]
      have hm : maxSevFrom acc.highest_severity (a :: t) =
          maxSevFrom acc.highest_severity t := by
        rw [maxSevFrom_cons, hmax]
      rw [hm]
      by_cases h2 : acc.highest_severity < maxSevFrom acc.highest_severity t
      · rw [if_pos h2, if_pos h2]
        have hne : a.severity ≠ maxSevFrom acc.highest_severity t :=
          ne_of_lt (lt_of_le_of_lt (not_lt.mp h) h2)
        simp [List.find?, decide_eq_false hne]
      · rw [if_neg h2, if_neg h2]

/-- An "emergency" alert with a low severity score. -/
def eLowAlertEx : Alert :=
  ⟨2, "emergency", "Z3", 40, 4, ⟨"#FF0000", true, 3, "🚨", "EMERGENCY - EVACUATE NOW"⟩,
    ⟨true, 1200, 7/10, 3, []⟩, "emergency_Z3"⟩

/-- A "warning" alert with a high severity score. -/
def wHighAlertEx : Alert :=
  ⟨3, "warning", "Z4", 95, 2, ⟨"#FFFF00", true, 1, "⚠️", "HIGH DENSITY WARNING"⟩,
    ⟨true, 800, 3/10, 1, [("beep", 3/10)]⟩, "warning_Z4"⟩

/-- C10: the summary's highest_priority slot holds the first alert (in list
order) whose severity equals the maximum severity, whenever some severity is
strictly positive — selection is by severity alone, not by priority level:
on the concrete list [eLowAlertEx, wHighAlertEx] the "warning" alert with
severity 95 is reported over the "emergency" alert with severity 40. -/
theorem summary_highest_priority_by_severity :
    (∀ alerts : List Alert, 0 < maxSevFrom 0 alerts →
      (generateAlertSummary alerts).highest_priority =
        alerts.find? (fun a => decide (a.severity = maxSevFrom 0 alerts))) ∧
    (eLowAlertEx.level = "emergency" ∧ wHighAlertEx.level = "warning" ∧
      eLowAlertEx.severity < wHighAlertEx.severity ∧
      (generateAlertSummary [eLowAlertEx, wHighAlertEx]).highest_priority =
        some wHighAlertEx) := by
  constructor
  · intro alerts h
    simp only [generateAlertSummary]
    rw [summary_fold_hp alerts ⟨⟨0, 0, 0⟩, none, 0, []⟩]
    rw [show (⟨⟨0, 0, 0⟩, none, 0, []⟩ : SummaryAcc).highest_severity = 0 from rfl]
    rw [if_pos h]
  · refine ⟨rfl, rfl, by norm_num [eLowAlertEx, wHighAlertEx], ?_⟩
    simp only [generateAlertSummary, List.foldl_cons, List.foldl_nil]
    rw [summaryStep_hp, summaryStep_hs]
    rw [if_pos (by norm_num [eLowAlertEx, wHighAlertEx] :
      max (⟨⟨0, 0, 0⟩, none, 0, []⟩ : SummaryAcc).highest_severity eLowAlertEx.severity <
        wHighAlertEx.severity)]

/-- Concrete instantiation of C10's characterization on the two-alert list:
the first alert attaining the maximum severity 95 is the "warning" alert. -/
theorem summary_highest_priority_by_severity_witness :
    (generateAlertSummary [eLowAlertEx, wHighAlertEx]).highest_priority =
      List.find? (fun a => decide (a.severity = maxSevFrom 0 [eLowAlertEx, wHighAlertEx]))
        [eLowAlertEx, wHighAlertEx] ∧
    maxSevFrom 0 [eLowAlertEx, wHighAlertEx] = 95 := by
  constructor
  · exact summary_highest_priority_by_severity.1 [eLowAlertEx, wHighAlertEx]
      (by norm_num [maxSevFrom, eLowAlertEx, wHighAlertEx])
  · norm_num [maxSevFrom, eLowAlertEx, wHighAlertEx]

end CrowdEval
